import Mathlib

/-!
Shallow embedding of the run-tracking core of `src/src/components/Map.tsx`
(the `Map` React component of the runpac repository).

Coordinates, timestamps (milliseconds) and distances are modelled as
rationals.  The external geometry primitives (`turf.distance`,
`@turf/length`) are treated as a trusted collaborator and appear as an
abstract parameter `dist : LatLng → LatLng → ℚ` giving the great-circle
distance in meters between two points; segment lengths in kilometers are
`dist a b / 1000`.

React state semantics are embedded explicitly: an event handler reads the
render snapshot it was created in, while successive state-setter calls
inside one handler accumulate into the next state.  Functional updates
(`setPath(prev => ...)`) operate on the accumulated pending value; plain
reads of state variables (`path`, `capturedAreas`, `startTime`, ...) always
see the snapshot.  This distinction is load-bearing: the simulation
completion callback and the stop handler read snapshot values after having
scheduled updates, exactly as the TypeScript source does.
-/

namespace RunPac

/-- A latitude/longitude pair, mirroring `LatLngTuple` in Map.tsx. -/
structure LatLng where
  lat : ℚ
  lng : ℚ
deriving DecidableEq, Repr, Inhabited

/-- A raw geolocation fix as consumed by the watchPosition success callback:
position, `Date.now()` timestamp in milliseconds, and reported accuracy in
meters (mirrors the `lastGPSPoint` record `{lat, lng, timestamp, accuracy}`). -/
structure GPSFix where
  lat : ℚ
  lng : ℚ
  timestamp : ℚ
  accuracy : ℚ
deriving DecidableEq, Repr

/-- The map point carried by a fix. -/
def GPSFix.pos (f : GPSFix) : LatLng := ⟨f.lat, f.lng⟩

/-- `const MIN_ACCURACY = 50` (meters). -/
def MIN_ACCURACY : ℚ := 50

/-- `const MAX_SPEED = 25` (meters per second). -/
def MAX_SPEED : ℚ := 25

/-- `const MIN_DISTANCE = 2` (meters between points). -/
def MIN_DISTANCE : ℚ := 2

/-- The predefined 9-point simulated run path `MOCK_RUN_PATH`; its first and
last entries are the identical point `[51.51, -0.10]`. -/
def MOCK_RUN_PATH : List LatLng :=
  [⟨51.51, -0.10⟩, ⟨51.515, -0.09⟩, ⟨51.52, -0.08⟩, ⟨51.515, -0.07⟩,
   ⟨51.51, -0.06⟩, ⟨51.505, -0.07⟩, ⟨51.50, -0.08⟩, ⟨51.495, -0.09⟩,
   ⟨51.51, -0.10⟩]

/-- The pure decision of `checkForTerritoryCapture`: for a path of more than
2 points whose first and last points are less than 150 meters apart, the
closed polygon `[...pathToCheck, pathToCheck[0]]`, otherwise nothing.
(The TypeScript function then appends the polygon to `capturedAreas` via a
functional state update; that effect is applied at each call site below.) -/
def checkForTerritoryCapture (dist : LatLng → LatLng → ℚ)
    (pathToCheck : List LatLng) : Option (List LatLng) :=
  if 2 < pathToCheck.length then
    if dist (pathToCheck.getD 0 default)
        (pathToCheck.getD (pathToCheck.length - 1) default) < 150 then
      some (pathToCheck ++ [pathToCheck.getD 0 default])
    else none
  else none

/-- Length in kilometers of the polyline through a list of points: the sum
of the great-circle lengths of every consecutive pair (the semantics of
`length(turf.lineString(path), {units: kilometers})`). -/
def pathLengthKm (dist : LatLng → LatLng → ℚ) : List LatLng → ℚ
  | a :: b :: rest => dist a b / 1000 + pathLengthKm dist (b :: rest)
  | _ => 0

/-- The distance-recomputation effect on `[path]`: if the path has more than
one point, recompute the total length from scratch, else set distance 0. -/
def distanceEffect (dist : LatLng → LatLng → ℚ) (path : List LatLng) : ℚ :=
  if 1 < path.length then pathLengthKm dist path else 0

/-- The GPS gating logic at the top of the watchPosition success callback
(identical in `handleStartTracking` and `handleResumeTracking`): reject on
accuracy above `MIN_ACCURACY`; with a previous accepted point, reject on
displacement below `MIN_DISTANCE` and on implied speed above `MAX_SPEED`,
where the speed is taken to be 0 when the time difference is not positive. -/
def acceptFix (dist : LatLng → LatLng → ℚ) (last : Option GPSFix)
    (fix : GPSFix) : Bool :=
  if MIN_ACCURACY < fix.accuracy then false
  else
    match last with
    | none => true
    | some lp =>
      let d := dist lp.pos fix.pos
      if d < MIN_DISTANCE then false
      else
        let timeDiff := (fix.timestamp - lp.timestamp) / 1000
        let speed := if 0 < timeDiff then d / timeDiff else 0
        if MAX_SPEED < speed then false else true

/-- A persisted run record, mirroring the `SavedRun` interface.  The string
fields `id` and `date` are both derived from `Date.now()` at save time; they
are modelled by the single rational millisecond value that generates them. -/
structure SavedRun where
  id : ℚ
  path : List LatLng
  distance : ℚ
  duration : ℤ
  totalTime : ℤ
  pauseCount : ℕ
  pauseDuration : ℤ
  capturedAreas : List (List LatLng)
deriving DecidableEq, Repr

/-- The `TrackingState` enum. -/
inductive TrackingState
  | stopped
  | running
  | paused
deriving DecidableEq, Repr

/-- The component state relevant to the tracking core: the React state
variables of `Map`, plus the geolocation bookkeeping.  `watchId` is the
`watchId.current` ref (the id the component tracks); `activeWatches` is the
browser-side set of subscriptions that have been registered by
`watchPosition` and not yet cancelled by `clearWatch` — the two can
diverge, because the component registers new subscriptions without
cancelling pre-existing ones.  `nextWatchId` allocates fresh ids, starting
at 1 so that a stored id is always truthy.  `lastGPSPoint` is the
GPS-filter baseline ref. -/
structure MapState where
  trackingState : TrackingState
  isSimulating : Bool
  path : List LatLng
  capturedAreas : List (List LatLng)
  distance : ℚ
  startTime : Option ℚ
  pauseStartTime : Option ℚ
  totalPauseTime : ℤ
  pauseCount : ℕ
  currentRunTime : ℚ
  savedRuns : List SavedRun
  watchId : Option ℕ
  activeWatches : List ℕ
  nextWatchId : ℕ
  lastGPSPoint : Option GPSFix
deriving DecidableEq, Repr

/-- The initial component state (all `useState` initial values; no watch). -/
def initialState : MapState :=
  { trackingState := .stopped
    isSimulating := false
    path := []
    capturedAreas := []
    distance := 0
    startTime := none
    pauseStartTime := none
    totalPauseTime := 0
    pauseCount := 0
    currentRunTime := 0
    savedRuns := []
    watchId := none
    activeWatches := []
    nextWatchId := 1
    lastGPSPoint := none }

/-- JavaScript truthiness of a nullable millisecond value, as used by the
guards `if (startTime)` and `if (pauseStartTime)`: `null` and `0` are falsy. -/
def optTruthy : Option ℚ → Bool
  | none => false
  | some t => if t = 0 then false else true

/-- `saveRunToLocalStorage` over the in-memory list it closes over:
`[...savedRuns, run]` is written to storage and, only if that write did not
throw, installed as the new in-memory list; on a throw the error is reported
(`alert`) and the setter is never reached.  Returns the resulting in-memory
list and whether the failure alert was shown. -/
def saveRunToLocalStorage (storageOk : Bool) (savedRuns : List SavedRun)
    (run : SavedRun) : List SavedRun × Bool :=
  if storageOk then (savedRuns ++ [run], false) else (savedRuns, true)

/-- The `if (watchId.current) { clearWatch(watchId.current);
watchId.current = null }` block shared by pause and stop: cancel the
subscription the component tracks (ids are allocated from 1, so a stored id
is always truthy) and null the ref.  Subscriptions the ref no longer points
at are NOT cancelled. -/
def clearTrackedWatch (s : MapState) : MapState :=
  { s with
    activeWatches :=
      match s.watchId with
      | some w => s.activeWatches.erase w
      | none => s.activeWatches
    watchId := none }

/-- `handleStartTracking` up to and including the `watchPosition` call (the
geolocation API is assumed available): enter `RUNNING`, clear the path,
captured areas, distance, pause bookkeeping and the GPS-filter baseline,
record the start time, and register a NEW subscription.  The source does
not cancel a pre-existing subscription here: `watchId.current` is simply
overwritten, so an already-registered watch is orphaned and keeps
delivering samples. -/
def handleStartTracking (now : ℚ) (s : MapState) : MapState :=
  { s with
    trackingState := .running
    path := []
    capturedAreas := []
    distance := 0
    startTime := some now
    pauseStartTime := none
    totalPauseTime := 0
    pauseCount := 0
    currentRunTime := 0
    lastGPSPoint := none
    watchId := some s.nextWatchId
    activeWatches := s.activeWatches ++ [s.nextWatchId]
    nextWatchId := s.nextWatchId + 1 }

/-- The success callback of subscription `w` (same code in start and
resume): it fires exactly while `w` is registered — also when `w` is an
orphaned subscription the component no longer tracks — and appends
unconditionally on acceptance, with no check of the machine state.  The
sample runs through `acceptFix`; on acceptance the filter baseline is
updated and the point appended to the path via a functional update.  The
distance-recomputation effect that React runs on every path change is
folded in. -/
def handleWatchSample (dist : LatLng → LatLng → ℚ) (w : ℕ) (fix : GPSFix)
    (s : MapState) : MapState :=
  if w ∈ s.activeWatches then
    if acceptFix dist s.lastGPSPoint fix then
      let newPath := s.path ++ [fix.pos]
      { s with
        lastGPSPoint := some fix
        path := newPath
        distance := distanceEffect dist newPath }
    else s
  else s

/-- The error callback of subscription `w`: fires while `w` is registered
(also for an orphaned subscription); alert the user and enter `STOPPED`.
It does NOT clear any watch registration. -/
def handleWatchError (w : ℕ) (s : MapState) : MapState :=
  if w ∈ s.activeWatches then { s with trackingState := .stopped } else s

/-- `handlePauseTracking`: enter `PAUSED`, record the pause start, increment
the pause count, cancel the tracked watch.  There is no guard on the
current state. -/
def handlePauseTracking (now : ℚ) (s : MapState) : MapState :=
  clearTrackedWatch
    { s with
      trackingState := .paused
      pauseStartTime := some now
      pauseCount := s.pauseCount + 1 }

/-- `handleResumeTracking`: if a pause start is recorded (truthy), fold
`floor((now - pauseStartTime)/1000)` whole seconds into the accumulated
pause time and clear the pause start; then enter `RUNNING` and register a
NEW subscription (geolocation assumed available).  As in start, no
pre-existing subscription is cancelled: the ref is overwritten. -/
def handleResumeTracking (now : ℚ) (s : MapState) : MapState :=
  let s1 :=
    if optTruthy s.pauseStartTime then
      { s with
        totalPauseTime := s.totalPauseTime + ⌊(now - s.pauseStartTime.getD 0) / 1000⌋
        pauseStartTime := none }
    else s
  { s1 with
    trackingState := .running
    watchId := some s1.nextWatchId
    activeWatches := s1.activeWatches ++ [s1.nextWatchId]
    nextWatchId := s1.nextWatchId + 1 }

/-- `handleStopTracking`: enter `STOPPED`, cancel the tracked watch, clear
the filter baseline and the live timer; run territory capture on the path
(appending a detected polygon to the captured-areas state via a functional
update); then, if the snapshot's start time is truthy and the path
nonempty, assemble a `SavedRun` from the SNAPSHOT values — in particular
`capturedAreas` is the snapshot list, which does not yet contain a polygon
detected moments before — and append it to the saved-run list.  Nothing
else is reset. -/
def handleStopTracking (dist : LatLng → LatLng → ℚ) (now : ℚ)
    (s : MapState) : MapState :=
  let s1 := clearTrackedWatch { s with
    trackingState := TrackingState.stopped
    lastGPSPoint := none
    currentRunTime := 0 }
  let s2 :=
    match checkForTerritoryCapture dist s.path with
    | some poly => { s1 with capturedAreas := s1.capturedAreas ++ [poly] }
    | none => s1
  if optTruthy s.startTime && !s.path.isEmpty then
    let totalRunTime : ℤ := ⌊(now - s.startTime.getD 0) / 1000⌋
    let activeDuration : ℤ := totalRunTime - s.totalPauseTime
    let runData : SavedRun :=
      { id := now
        path := s.path
        distance := s.distance
        duration := activeDuration
        totalTime := totalRunTime
        pauseCount := s.pauseCount
        pauseDuration := s.totalPauseTime
        capturedAreas := s.capturedAreas }
    { s2 with savedRuns := (saveRunToLocalStorage true s.savedRuns runData).1 }
  else s2

/-- One tick of the simulation interval before completion: append the next
mock point (functional update) with the distance effect folded in. -/
def simStep (dist : LatLng → LatLng → ℚ) (s : MapState) (p : LatLng) :
    MapState :=
  let newPath := s.path ++ [p]
  { s with path := newPath, distance := distanceEffect dist newPath }

/-- `handleSimulateRun` run to completion with no interleaved events:
the click clears path/areas/distance, records a start time and begins the
interval; the ticks feed the 9 mock points through the path; the final tick
detects the territory on `MOCK_RUN_PATH` and then — because the interval
callback closed over the RENDER SNAPSHOT `s0` of the click — consults the
stale `s0.startTime` (not the value just set), and on a truthy stale value
assembles a record from the stale `s0.distance` and `s0.capturedAreas` and
appends it to the stale `s0.savedRuns`.  `tClick` is the click time,
`tEnd` the completion time. -/
def handleSimulateRun (dist : LatLng → LatLng → ℚ) (tClick tEnd : ℚ)
    (s0 : MapState) : MapState :=
  let s1 := { s0 with
    isSimulating := true
    path := []
    capturedAreas := []
    distance := 0
    startTime := some tClick }
  let s2 := MOCK_RUN_PATH.foldl (simStep dist) s1
  let s3 :=
    match checkForTerritoryCapture dist MOCK_RUN_PATH with
    | some poly => { s2 with capturedAreas := s2.capturedAreas ++ [poly] }
    | none => s2
  let s4 := { s3 with isSimulating := false }
  if optTruthy s0.startTime then
    let dur : ℤ := ⌊(tEnd - s0.startTime.getD 0) / 1000⌋
    let runData : SavedRun :=
      { id := tEnd
        path := MOCK_RUN_PATH
        distance := s0.distance
        duration := dur
        totalTime := dur
        pauseCount := 0
        pauseDuration := 0
        capturedAreas := s0.capturedAreas }
    { s4 with savedRuns := (saveRunToLocalStorage true s0.savedRuns runData).1 }
  else s4

/-- The discrete events the component reacts to.  `sample w fix` and
`srcError w` are deliveries from the geolocation subscription with id `w`;
they only take effect while `w` is registered. -/
inductive Ev
  | start (now : ℚ)
  | pause (now : ℚ)
  | resume (now : ℚ)
  | stop (now : ℚ)
  | sample (w : ℕ) (fix : GPSFix)
  | srcError (w : ℕ)
  | simulate (tClick tEnd : ℚ)
deriving DecidableEq, Repr

/-- Dispatch one event to its handler. -/
def step (dist : LatLng → LatLng → ℚ) (s : MapState) : Ev → MapState
  | .start now => handleStartTracking now s
  | .pause now => handlePauseTracking now s
  | .resume now => handleResumeTracking now s
  | .stop now => handleStopTracking dist now s
  | .sample w fix => handleWatchSample dist w fix s
  | .srcError w => handleWatchError w s
  | .simulate a b => handleSimulateRun dist a b s

/-- Run a sequence of events from a state. -/
def runEvents (dist : LatLng → LatLng → ℚ) (s : MapState) (evs : List Ev) :
    MapState :=
  evs.foldl (step dist) s

/-- The conditions under which the rendered UI can emit each user event:
the start and simulate buttons exist only while Stopped, pause only while
Running, resume only while Paused, and stop only during an active session.
Subscription deliveries can arrive at any time; a position-source error is
outside the discipline. -/
def uiLegal (s : MapState) : Ev → Prop
  | Ev.start _ => s.trackingState = TrackingState.stopped
  | Ev.pause _ => s.trackingState = TrackingState.running
  | Ev.resume _ => s.trackingState = TrackingState.paused
  | Ev.stop _ => s.trackingState ≠ TrackingState.stopped
  | Ev.sample _ _ => True
  | Ev.srcError _ => False
  | Ev.simulate _ _ => s.trackingState = TrackingState.stopped

/-- An event sequence every step of which the rendered UI can emit from the
state reached so far (in particular it contains no position-source error). -/
def uiDriven (dist : LatLng → LatLng → ℚ) : MapState → List Ev → Prop
  | _, [] => True
  | s, e :: evs => uiLegal s e ∧ uiDriven dist (step dist s e) evs

/-- The watch bookkeeping the UI-driven lifecycle maintains: while Running
exactly the tracked subscription is registered, otherwise none is. -/
def WatchInv (s : MapState) : Prop :=
  (s.trackingState = TrackingState.running →
    ∃ w, s.watchId = some w ∧ s.activeWatches = [w]) ∧
  (s.trackingState ≠ TrackingState.running →
    s.watchId = none ∧ s.activeWatches = [])

/-- A concrete stand-in metric (squared coordinate differences) used only to
instantiate the abstract great-circle distance parameter in closed witnesses
and counterexamples.  It vanishes exactly on identical points, which is the
only metric property those concrete evaluations rely on. -/
def sqDist (a b : LatLng) : ℚ :=
  (a.lat - b.lat) * (a.lat - b.lat) + (a.lng - b.lng) * (a.lng - b.lng)

/-! ### Helper lemmas shared by the claim theorems -/

theorem simSteps_savedRuns (dist : LatLng → LatLng → ℚ) (l : List LatLng)
    (s : MapState) : (l.foldl (simStep dist) s).savedRuns = s.savedRuns := by
  induction l generalizing s with
  | nil => rfl
  | cons a l ih => simp [List.foldl, simStep, ih]

theorem simSteps_capturedAreas (dist : LatLng → LatLng → ℚ) (l : List LatLng)
    (s : MapState) :
    (l.foldl (simStep dist) s).capturedAreas = s.capturedAreas := by
  induction l generalizing s with
  | nil => rfl
  | cons a l ih => simp [List.foldl, simStep, ih]

theorem simSteps_trackingState (dist : LatLng → LatLng → ℚ) (l : List LatLng)
    (s : MapState) :
    (l.foldl (simStep dist) s).trackingState = s.trackingState := by
  induction l generalizing s with
  | nil => rfl
  | cons a l ih => simp [List.foldl, simStep, ih]

theorem simSteps_watchId (dist : LatLng → LatLng → ℚ) (l : List LatLng)
    (s : MapState) :
    (l.foldl (simStep dist) s).watchId = s.watchId := by
  induction l generalizing s with
  | nil => rfl
  | cons a l ih => simp [List.foldl, simStep, ih]

theorem simSteps_activeWatches (dist : LatLng → LatLng → ℚ) (l : List LatLng)
    (s : MapState) :
    (l.foldl (simStep dist) s).activeWatches = s.activeWatches := by
  induction l generalizing s with
  | nil => rfl
  | cons a l ih => simp [List.foldl, simStep, ih]

theorem simSteps_distance_inv (dist : LatLng → LatLng → ℚ) (l : List LatLng)
    (s : MapState) (h : s.distance = distanceEffect dist s.path) :
    (l.foldl (simStep dist) s).distance
      = distanceEffect dist (l.foldl (simStep dist) s).path := by
  induction l generalizing s with
  | nil => exact h
  | cons a l ih => exact ih _ (by simp [simStep])

/-- The mock path closes on itself under the concrete witness metric. -/
theorem checkCapture_MOCK_sq :
    checkForTerritoryCapture sqDist MOCK_RUN_PATH
      = some (MOCK_RUN_PATH ++ [⟨51.51, -0.10⟩]) := by
  norm_num [checkForTerritoryCapture, MOCK_RUN_PATH, sqDist]

/-- Field-by-field description of what `handleStopTracking` does NOT touch:
the path, distance, start time and pause bookkeeping of the ended session
survive the stop transition, while the machine state is set to Stopped and
only the tracked watch is cancelled. -/
theorem handleStopTracking_frame (dist : LatLng → LatLng → ℚ) (now : ℚ)
    (s : MapState) :
    (handleStopTracking dist now s).path = s.path ∧
    (handleStopTracking dist now s).distance = s.distance ∧
    (handleStopTracking dist now s).startTime = s.startTime ∧
    (handleStopTracking dist now s).pauseStartTime = s.pauseStartTime ∧
    (handleStopTracking dist now s).totalPauseTime = s.totalPauseTime ∧
    (handleStopTracking dist now s).pauseCount = s.pauseCount ∧
    (handleStopTracking dist now s).trackingState = TrackingState.stopped ∧
    (handleStopTracking dist now s).watchId = none ∧
    (handleStopTracking dist now s).activeWatches
      = (clearTrackedWatch s).activeWatches := by
  unfold handleStopTracking clearTrackedWatch
  rcases checkForTerritoryCapture dist s.path with _ | poly <;> split_ifs <;>
    simp_all

/-! ### Claim theorems -/

/-- Claim C3: the territory detector returns null for every path of 2 or
fewer points regardless of endpoint distance; for every path of 3 or more
points it returns the path with its first point appended as the final point
exactly when the distance between first and last point is strictly below the
150 m closure threshold, and null otherwise; every returned polygon has its
first point equal to its last point and length equal to the input length
plus one, hence at least 4. -/
theorem territory_detector_spec (dist : LatLng → LatLng → ℚ)
    (p : List LatLng) :
    (p.length ≤ 2 → checkForTerritoryCapture dist p = none) ∧
    (3 ≤ p.length →
      (dist (p.getD 0 default) (p.getD (p.length - 1) default) < 150 →
        checkForTerritoryCapture dist p = some (p ++ [p.getD 0 default])) ∧
      (¬ dist (p.getD 0 default) (p.getD (p.length - 1) default) < 150 →
        checkForTerritoryCapture dist p = none)) ∧
    (∀ poly, checkForTerritoryCapture dist p = some poly →
      poly.head? = poly.getLast? ∧ poly.length = p.length + 1 ∧
        4 ≤ poly.length) := by
  refine ⟨?_, ?_, ?_⟩
  · intro h
    unfold checkForTerritoryCapture
    rw [if_neg (by omega)]
  · intro h
    refine ⟨?_, ?_⟩
    · intro hd
      unfold checkForTerritoryCapture
      rw [if_pos (by omega), if_pos hd]
    · intro hd
      unfold checkForTerritoryCapture
      rw [if_pos (by omega), if_neg hd]
  · intro poly hpoly
    unfold checkForTerritoryCapture at hpoly
    split_ifs at hpoly with h1 h2
    · obtain rfl : poly = p ++ [p.getD 0 default] :=
        (Option.some.injEq _ _ ▸ hpoly).symm
      obtain ⟨a, t, rfl⟩ : ∃ a t, p = a :: t := by
        cases p with
        | nil => simp at h1
        | cons a t => exact ⟨a, t, rfl⟩
      have h1' : 2 < t.length + 1 := by simpa using h1
      refine ⟨?_, by simp, ?_⟩
      · rw [List.getLast?_concat]
        rfl
      · simp only [List.length_append, List.length_cons, List.length_singleton]
        omega

/-- Witness for `territory_detector_spec`: on a concrete 3-point path whose
endpoints coincide, the detector produces the 4-point closed polygon. -/
theorem territory_detector_spec_witness :
    checkForTerritoryCapture sqDist [⟨0, 0⟩, ⟨1, 0⟩, ⟨0, 0⟩]
      = some [⟨0, 0⟩, ⟨1, 0⟩, ⟨0, 0⟩, ⟨0, 0⟩] := by
  have h := (territory_detector_spec sqDist [⟨0, 0⟩, ⟨1, 0⟩, ⟨0, 0⟩]).2.1
  have h2 := (h (by norm_num)).1 (by norm_num [sqDist])
  simpa using h2

/-- Claim C4: the GPS sample filter accepts a sample iff its accuracy is at
most the 50 m accuracy threshold, and, when a last accepted sample exists,
the distance from it is at least the 2 m minimum displacement and either the
elapsed time `dt` is not positive (speed check skipped) or the implied speed
`d / dt` is at most the 25 m/s maximum speed. -/
theorem gps_filter_spec (dist : LatLng → LatLng → ℚ) (last : Option GPSFix)
    (fix : GPSFix) :
    acceptFix dist last fix = true ↔
      fix.accuracy ≤ MIN_ACCURACY ∧
        ∀ lp, last = some lp →
          MIN_DISTANCE ≤ dist lp.pos fix.pos ∧
            ((fix.timestamp - lp.timestamp) / 1000 ≤ 0 ∨
              dist lp.pos fix.pos / ((fix.timestamp - lp.timestamp) / 1000)
                ≤ MAX_SPEED) := by
  unfold acceptFix
  cases last with
  | none =>
    split_ifs with h
    · simp only [Bool.false_eq_true, false_iff, not_and]
      intro hle
      exact absurd h (not_lt.mpr hle)
    · simp only [true_iff]
      exact ⟨not_lt.mp h, fun lp hlp => by cases hlp⟩
  | some lp =>
    dsimp only
    by_cases h1 : MIN_ACCURACY < fix.accuracy
    · rw [if_pos h1]
      simp only [Bool.false_eq_true, false_iff, not_and]
      intro hle
      exact absurd h1 (not_lt.mpr hle)
    · rw [if_neg h1]
      by_cases h2 : dist lp.pos fix.pos < MIN_DISTANCE
      · rw [if_pos h2]
        simp only [Bool.false_eq_true, false_iff, not_and]
        intro _ hall
        exact absurd ((hall lp rfl).1) (not_le.mpr h2)
      · rw [if_neg h2]
        by_cases htd : 0 < (fix.timestamp - lp.timestamp) / 1000
        · rw [if_pos htd]
          by_cases h3 : MAX_SPEED <
              dist lp.pos fix.pos / ((fix.timestamp - lp.timestamp) / 1000)
          · rw [if_pos h3]
            simp only [Bool.false_eq_true, false_iff, not_and]
            intro _ hall
            rcases (hall lp rfl).2 with hle | hsp
            · exact absurd htd (not_lt.mpr hle)
            · exact absurd h3 (not_lt.mpr hsp)
          · rw [if_neg h3]
            simp only [true_iff]
            refine ⟨not_lt.mp h1, fun lq hlq => ?_⟩
            cases hlq
            exact ⟨not_lt.mp h2, Or.inr (not_lt.mp h3)⟩
        · rw [if_neg htd]
          rw [if_neg (by norm_num [MAX_SPEED])]
          simp only [true_iff]
          refine ⟨not_lt.mp h1, fun lq hlq => ?_⟩
          cases hlq
          exact ⟨not_lt.mp h2, Or.inl (not_lt.mp htd)⟩

/-- Witness for `gps_filter_spec`: a sufficiently accurate first sample
(no previous accepted sample) is accepted. -/
theorem gps_filter_spec_witness :
    acceptFix sqDist none ⟨0, 0, 1000, 10⟩ = true :=
  (gps_filter_spec sqDist none ⟨0, 0, 1000, 10⟩).mpr
    ⟨by norm_num [MIN_ACCURACY], fun lp hlp => by cases hlp⟩

/-- One event preserves the invariant that the displayed distance is exactly
the from-scratch recomputation of the current path's length. -/
theorem step_distance_inv (dist : LatLng → LatLng → ℚ) (s : MapState)
    (h : s.distance = distanceEffect dist s.path) (ev : Ev) :
    (step dist s ev).distance = distanceEffect dist (step dist s ev).path := by
  cases ev with
  | start now => simp [step, handleStartTracking, distanceEffect]
  | pause now => simpa [step, handlePauseTracking, clearTrackedWatch] using h
  | resume now =>
    unfold step handleResumeTracking
    split_ifs <;> simpa using h
  | stop now =>
    have hf := handleStopTracking_frame dist now s
    show (handleStopTracking dist now s).distance
      = distanceEffect dist (handleStopTracking dist now s).path
    rw [hf.2.1, hf.1]
    exact h
  | sample w fix =>
    unfold step handleWatchSample
    by_cases hm : w ∈ s.activeWatches
    · by_cases hacc : acceptFix dist s.lastGPSPoint fix = true
      · simp [hm, hacc]
      · simpa [hm, hacc] using h
    · simpa [hm] using h
  | srcError w =>
    show (handleWatchError w s).distance
      = distanceEffect dist (handleWatchError w s).path
    unfold handleWatchError
    split_ifs <;> simpa using h
  | simulate a b =>
    unfold step handleSimulateRun
    rcases checkForTerritoryCapture dist MOCK_RUN_PATH with _ | poly <;>
      split_ifs <;>
      · simpa using simSteps_distance_inv dist MOCK_RUN_PATH _
          (by simp [distanceEffect])

/-- The distance/path invariant propagates along any event sequence. -/
theorem runEvents_distance_inv (dist : LatLng → LatLng → ℚ) (evs : List Ev)
    (s : MapState) (h : s.distance = distanceEffect dist s.path) :
    (runEvents dist s evs).distance
      = distanceEffect dist (runEvents dist s evs).path := by
  induction evs generalizing s with
  | nil => exact h
  | cons e evs ih => exact ih _ (step_distance_inv dist s h e)

/-- Claim C6: at every reachable state the current distance equals the sum
of the great-circle lengths of every consecutive pair of points in the
accumulated path, recomputed from the path alone; a path of 0 or 1 points
has distance 0.  Determinism of the recomputation is definitional: the
recomputation is a pure function of the path. -/
theorem distance_recompute_spec (dist : LatLng → LatLng → ℚ) :
    (∀ path, distanceEffect dist path = pathLengthKm dist path) ∧
    (∀ path : List LatLng, path.length ≤ 1 → distanceEffect dist path = 0) ∧
    (∀ evs : List Ev, (runEvents dist initialState evs).distance
      = pathLengthKm dist (runEvents dist initialState evs).path) := by
  have hall : ∀ path, distanceEffect dist path = pathLengthKm dist path := by
    intro path
    cases path with
    | nil => rfl
    | cons a t =>
      cases t with
      | nil => rfl
      | cons b u =>
        unfold distanceEffect
        rw [if_pos (by simp)]
  refine ⟨hall, ?_, ?_⟩
  · intro path hlen
    cases path with
    | nil => rfl
    | cons a t =>
      cases t with
      | nil => rfl
      | cons b u => simp at hlen
  · intro evs
    rw [← hall]
    exact runEvents_distance_inv dist evs initialState
      (by simp [initialState, distanceEffect])

/-- Witness for `distance_recompute_spec`: evaluating the concluded facts at
the concrete metric, a one-point path and a concrete event sequence. -/
theorem distance_recompute_spec_witness :
    distanceEffect sqDist [⟨0, 0⟩] = 0 ∧
    (runEvents sqDist initialState [Ev.start 1000]).distance
      = pathLengthKm sqDist (runEvents sqDist initialState [Ev.start 1000]).path :=
  ⟨(distance_recompute_spec sqDist).2.1 _ (by simp),
   (distance_recompute_spec sqDist).2.2 [Ev.start 1000]⟩

/-- Claim C5: a session started at base time `t0` with one accepted sample,
paused at `t0+10000` ms, resumed at `t0+15000` ms and stopped at `t0+20000`
ms finalizes to `totalTime = 20` s, `pauseDuration = 5` s, active
`duration = 15` s and `pauseCount = 1`, observed in the `SavedRun` the stop
transition appends (the sample makes the path nonempty so the record is
assembled). -/
theorem pause_resume_finalize_spec (dist : LatLng → LatLng → ℚ) (t0 : ℚ)
    (fix : GPSFix) (ht : 0 < t0) (hacc : fix.accuracy ≤ MIN_ACCURACY) :
    ∃ run : SavedRun,
      (runEvents dist initialState
        [Ev.start t0, Ev.sample 1 fix, Ev.pause (t0 + 10000),
         Ev.resume (t0 + 15000), Ev.stop (t0 + 20000)]).savedRuns = [run] ∧
      run.totalTime = 20 ∧ run.pauseDuration = 5 ∧ run.duration = 15 ∧
      run.pauseCount = 1 := by
  have h0 : t0 ≠ 0 := ne_of_gt ht
  have h0b : t0 + 10000 ≠ 0 := by positivity
  have hnl : ¬ MIN_ACCURACY < fix.accuracy := not_lt.mpr hacc
  have e5 : (t0 + 15000 - (t0 + 10000)) / 1000 = (5 : ℚ) := by ring
  have e20 : (t0 + 20000 - t0) / 1000 = (20 : ℚ) := by ring
  refine ⟨⟨t0 + 20000, [fix.pos], 0, 15, 20, 1, 5, []⟩, ?_, rfl, rfl, rfl, rfl⟩
  norm_num [runEvents, step, handleStartTracking, handleWatchSample,
    handlePauseTracking, handleResumeTracking, handleStopTracking,
    clearTrackedWatch, acceptFix, optTruthy, initialState,
    checkForTerritoryCapture, distanceEffect, saveRunToLocalStorage, hnl, h0,
    h0b, e5, e20]

/-- Witness for `pause_resume_finalize_spec` at `t0 = 1000` with a concrete
accurate sample. -/
theorem pause_resume_finalize_spec_witness :
    (0 : ℚ) < 1000 ∧ (⟨0, 0, 2000, 10⟩ : GPSFix).accuracy ≤ MIN_ACCURACY ∧
    ∃ run : SavedRun,
      (runEvents sqDist initialState
        [Ev.start 1000, Ev.sample 1 ⟨0, 0, 2000, 10⟩, Ev.pause (1000 + 10000),
         Ev.resume (1000 + 15000), Ev.stop (1000 + 20000)]).savedRuns = [run] ∧
      run.totalTime = 20 ∧ run.pauseDuration = 5 ∧ run.duration = 15 ∧
      run.pauseCount = 1 :=
  ⟨by norm_num, by norm_num [MIN_ACCURACY],
    pause_resume_finalize_spec sqDist 1000 ⟨0, 0, 2000, 10⟩ (by norm_num)
      (by norm_num [MIN_ACCURACY])⟩

/-- Claim C2 (divergence): a session started at 1000 ms with one accepted
sample, paused at 11000 ms and stopped at 21000 ms WHILE STILL PAUSED saves
a run with `pauseDuration = 0` and active `duration = 20` — the open pause
interval (10 s) is never folded into the totals, and the open
`pauseStartTime` is left set after the stop. -/
theorem stop_while_paused_skips_open_pause :
    (runEvents sqDist initialState
      [Ev.start 1000, Ev.sample 1 ⟨0, 0, 2000, 10⟩, Ev.pause 11000,
       Ev.stop 21000]).savedRuns
      = [⟨21000, [⟨0, 0⟩], 0, 20, 20, 1, 0, []⟩] ∧
    (runEvents sqDist initialState
      [Ev.start 1000, Ev.sample 1 ⟨0, 0, 2000, 10⟩, Ev.pause 11000,
       Ev.stop 21000]).pauseStartTime = some 11000 := by
  constructor <;>
    norm_num [runEvents, step, handleStartTracking, handleWatchSample,
      handlePauseTracking, handleStopTracking, clearTrackedWatch, acceptFix,
      optTruthy, initialState, checkForTerritoryCapture, distanceEffect,
      saveRunToLocalStorage, MIN_ACCURACY, GPSFix.pos]

/-- Claim C1 (divergence): completing a simulation started from the initial
component state detects the territory (the live captured-areas state gains
the closed mock polygon) but appends NO `SavedRun` to the archive, because
the completion callback reads the stale `startTime` snapshot (`null`); and
when a stale non-null `startTime` from earlier activity exists, exactly one
run is appended but its `capturedAreas` is the stale pre-simulation snapshot
(empty), not the freshly detected polygon. -/
theorem simulate_run_not_archived :
    (handleSimulateRun sqDist 1000 5500 initialState).savedRuns = [] ∧
    (handleSimulateRun sqDist 1000 5500 initialState).capturedAreas
      = [MOCK_RUN_PATH ++ [⟨51.51, -0.10⟩]] ∧
    (handleSimulateRun sqDist 1000 5500
      { initialState with startTime := some 900 }).savedRuns.map
        SavedRun.capturedAreas = [[]] := by
  refine ⟨?_, ?_, ?_⟩
  · norm_num [handleSimulateRun, optTruthy, initialState, simSteps_savedRuns,
      checkCapture_MOCK_sq]
  · norm_num [handleSimulateRun, optTruthy, initialState,
      simSteps_capturedAreas, checkCapture_MOCK_sq]
  · norm_num [handleSimulateRun, optTruthy, initialState, simSteps_savedRuns,
      checkCapture_MOCK_sq, saveRunToLocalStorage]

/-- Claim C7 (counterexample): after a stop transition the session state is
NOT the cleared initial state — the ended session's path and start time are
still in place. -/
theorem stop_retains_session_state :
    (runEvents sqDist initialState
      [Ev.start 1000, Ev.sample 1 ⟨0, 0, 2000, 10⟩, Ev.stop 21000]).path
      = [⟨0, 0⟩] ∧
    (runEvents sqDist initialState
      [Ev.start 1000, Ev.sample 1 ⟨0, 0, 2000, 10⟩, Ev.stop 21000]).startTime
      = some 1000 ∧
    (runEvents sqDist initialState
      [Ev.start 1000, Ev.sample 1 ⟨0, 0, 2000, 10⟩, Ev.stop 21000]).path
      ≠ initialState.path := by
  refine ⟨?_, ?_, ?_⟩ <;>
    norm_num [runEvents, step, handleStartTracking, handleWatchSample,
      handleStopTracking, clearTrackedWatch, acceptFix, optTruthy,
      initialState, checkForTerritoryCapture, distanceEffect,
      saveRunToLocalStorage, MIN_ACCURACY, GPSFix.pos]

/-- Claim C7 (amended): the reset of session-scoped state happens on the
start transition, not the stop transition: stop leaves the path, distance,
start time and pause bookkeeping of the ended session untouched, and start
clears them all. -/
theorem session_reset_happens_at_start (dist : LatLng → LatLng → ℚ)
    (now : ℚ) (s : MapState) :
    ((handleStopTracking dist now s).path = s.path ∧
      (handleStopTracking dist now s).distance = s.distance ∧
      (handleStopTracking dist now s).startTime = s.startTime ∧
      (handleStopTracking dist now s).totalPauseTime = s.totalPauseTime ∧
      (handleStopTracking dist now s).pauseCount = s.pauseCount) ∧
    ((handleStartTracking now s).path = [] ∧
      (handleStartTracking now s).capturedAreas = [] ∧
      (handleStartTracking now s).distance = 0 ∧
      (handleStartTracking now s).startTime = some now ∧
      (handleStartTracking now s).pauseStartTime = none ∧
      (handleStartTracking now s).totalPauseTime = 0 ∧
      (handleStartTracking now s).pauseCount = 0 ∧
      (handleStartTracking now s).currentRunTime = 0) := by
  have hf := handleStopTracking_frame dist now s
  exact ⟨⟨hf.1, hf.2.1, hf.2.2.1, hf.2.2.2.2.1, hf.2.2.2.2.2.1⟩,
    rfl, rfl, rfl, rfl, rfl, rfl, rfl, rfl⟩

/-- Claim C8 (counterexample): two ways a sample is appended while the
machine is Paused or Stopped.  First, a position-source error during a
running session enters Stopped WITHOUT cancelling the subscription, and a
later sample from that subscription is appended while Stopped.  Second,
start() registers a new subscription without cancelling a pre-existing one,
so after start, start, pause the orphaned first subscription is still
registered and its sample is appended while Paused. -/
theorem error_stop_keeps_subscription :
    ((runEvents sqDist initialState
        [Ev.start 1000, Ev.srcError 1]).trackingState
      = TrackingState.stopped ∧
    (runEvents sqDist initialState
        [Ev.start 1000, Ev.srcError 1]).activeWatches = [1] ∧
    (runEvents sqDist initialState
      [Ev.start 1000, Ev.srcError 1, Ev.sample 1 ⟨0, 0, 2000, 10⟩]).path
      = [⟨0, 0⟩]) ∧
    ((runEvents sqDist initialState
        [Ev.start 1000, Ev.start 2000, Ev.pause 3000]).trackingState
      = TrackingState.paused ∧
    (runEvents sqDist initialState
        [Ev.start 1000, Ev.start 2000, Ev.pause 3000]).activeWatches = [1] ∧
    (runEvents sqDist initialState
      [Ev.start 1000, Ev.start 2000, Ev.pause 3000,
       Ev.sample 1 ⟨0, 0, 4000, 10⟩]).path = [⟨0, 0⟩]) := by
  refine ⟨⟨?_, ?_, ?_⟩, ?_, ?_, ?_⟩ <;>
    norm_num [runEvents, step, handleStartTracking, handlePauseTracking,
      handleWatchError, handleWatchSample, clearTrackedWatch, acceptFix,
      optTruthy, initialState, distanceEffect, MIN_ACCURACY, GPSFix.pos,
      List.erase_cons]

/-- A UI-emittable event preserves the watch invariant. -/
theorem step_WatchInv (dist : LatLng → LatLng → ℚ) (s : MapState) (ev : Ev)
    (hleg : uiLegal s ev) (h : WatchInv s) : WatchInv (step dist s ev) := by
  cases ev with
  | start now =>
    have hst : s.trackingState = TrackingState.stopped := hleg
    have h2 := h.2 (by rw [hst]; simp)
    refine ⟨fun _ => ⟨s.nextWatchId, rfl, ?_⟩, fun hc => absurd rfl hc⟩
    show s.activeWatches ++ [s.nextWatchId] = [s.nextWatchId]
    rw [h2.2]
    rfl
  | pause now =>
    have hr : s.trackingState = TrackingState.running := hleg
    obtain ⟨w, hw, ha⟩ := h.1 hr
    refine ⟨fun hc => absurd hc (by simp [step, handlePauseTracking,
      clearTrackedWatch]), fun _ => ⟨rfl, ?_⟩⟩
    show (match s.watchId with
      | some w => s.activeWatches.erase w
      | none => s.activeWatches) = []
    rw [hw, ha]
    simp
  | resume now =>
    have hp : s.trackingState = TrackingState.paused := hleg
    have h2 := h.2 (by rw [hp]; simp)
    unfold step handleResumeTracking
    split_ifs <;>
    · refine ⟨fun _ => ⟨s.nextWatchId, rfl, ?_⟩, fun hc => absurd rfl hc⟩
      show s.activeWatches ++ [s.nextWatchId] = [s.nextWatchId]
      rw [h2.2]
      rfl
  | stop now =>
    have hf := handleStopTracking_frame dist now s
    refine ⟨fun hc => absurd (hf.2.2.2.2.2.2.1.symm.trans hc) (by simp),
      fun _ => ⟨hf.2.2.2.2.2.2.2.1, ?_⟩⟩
    show (handleStopTracking dist now s).activeWatches = []
    rw [hf.2.2.2.2.2.2.2.2]
    by_cases hr : s.trackingState = TrackingState.running
    · obtain ⟨w, hw, ha⟩ := h.1 hr
      unfold clearTrackedWatch
      rw [hw, ha]
      simp
    · obtain ⟨hw, ha⟩ := h.2 hr
      unfold clearTrackedWatch
      rw [hw, ha]
  | sample w fix =>
    unfold step handleWatchSample
    by_cases hm : w ∈ s.activeWatches
    · by_cases hacc : acceptFix dist s.lastGPSPoint fix = true
      · simp only [hm, hacc, if_true]
        exact ⟨fun hc => h.1 hc, fun hc => h.2 hc⟩
      · simp only [hm, hacc, if_true, if_false]
        exact h
    · simp only [hm, if_false]
      exact h
  | srcError w => exact hleg.elim
  | simulate a b =>
    unfold step handleSimulateRun
    rcases checkForTerritoryCapture dist MOCK_RUN_PATH with _ | poly <;>
      split_ifs <;>
      · constructor
        · intro hc
          simp only [simSteps_trackingState] at hc
          obtain ⟨w, hw, ha⟩ := h.1 hc
          exact ⟨w, by simp only [simSteps_watchId]; exact hw,
            by simp only [simSteps_activeWatches]; exact ha⟩
        · intro hc
          simp only [simSteps_trackingState] at hc
          obtain ⟨hw, ha⟩ := h.2 hc
          exact ⟨by simp only [simSteps_watchId]; exact hw,
            by simp only [simSteps_activeWatches]; exact ha⟩

/-- The watch invariant propagates along any UI-driven event sequence. -/
theorem uiDriven_WatchInv (dist : LatLng → LatLng → ℚ) (evs : List Ev)
    (s : MapState) (hui : uiDriven dist s evs) (h : WatchInv s) :
    WatchInv (runEvents dist s evs) := by
  induction evs generalizing s with
  | nil => exact h
  | cons e evs ih => exact ih _ hui.2 (step_WatchInv dist s e hui.1 h)

/-- Claim C8 (amended): pause() and stop() cancel, within the same
transition, the subscription the watch handle tracks; along every UI-driven
event sequence (start/simulate only while Stopped, pause only while
Running, resume only while Paused, stop only during an active session, no
position-source error) at most the tracked subscription is ever registered,
every entry into Paused or Stopped leaves no subscription registered, and
no sample is ever appended to the path while the machine is Paused or
Stopped.  Outside that discipline the guarantee fails: the error-forced
Stopped entry does not cancel the subscription, and start()/resume()
register a new subscription without cancelling a pre-existing one, whose
samples are still appended. -/
theorem no_sample_while_not_running_ui_driven
    (dist : LatLng → LatLng → ℚ) (evs : List Ev)
    (hui : uiDriven dist initialState evs)
    (hst : (runEvents dist initialState evs).trackingState
      ≠ TrackingState.running) :
    (runEvents dist initialState evs).activeWatches = [] ∧
    ∀ w fix,
      (handleWatchSample dist w fix (runEvents dist initialState evs)).path
        = (runEvents dist initialState evs).path := by
  have hinit : WatchInv initialState := by
    unfold WatchInv
    exact ⟨fun hc => (nomatch hc), fun _ => ⟨rfl, rfl⟩⟩
  have hinv := uiDriven_WatchInv dist evs initialState hui hinit
  have ha := (hinv.2 hst).2
  refine ⟨ha, fun w fix => ?_⟩
  unfold handleWatchSample
  rw [ha]
  simp

/-- Witness for `no_sample_while_not_running_ui_driven`: after the
UI-driven sequence start, pause, no subscription is registered and a sample
leaves the path unchanged. -/
theorem no_sample_while_not_running_witness :
    uiDriven sqDist initialState [Ev.start 1000, Ev.pause 2000] ∧
    (runEvents sqDist initialState
      [Ev.start 1000, Ev.pause 2000]).activeWatches = [] ∧
    (handleWatchSample sqDist 1 ⟨0, 0, 3000, 10⟩
        (runEvents sqDist initialState [Ev.start 1000, Ev.pause 2000])).path
      = (runEvents sqDist initialState [Ev.start 1000, Ev.pause 2000]).path := by
  have hui : uiDriven sqDist initialState [Ev.start 1000, Ev.pause 2000] := by
    unfold uiDriven
    exact ⟨rfl, rfl, trivial⟩
  have hst : (runEvents sqDist initialState
      [Ev.start 1000, Ev.pause 2000]).trackingState
      ≠ TrackingState.running := by
    have h1 : (runEvents sqDist initialState
        [Ev.start 1000, Ev.pause 2000]).trackingState
        = TrackingState.paused := rfl
    rw [h1]
    simp
  have h := no_sample_while_not_running_ui_driven sqDist
    [Ev.start 1000, Ev.pause 2000] hui hst
  exact ⟨hui, h.1, h.2 1 _⟩

/-- Claim C9 (counterexample): when the storage write fails, the failure is
reported but the run does NOT appear in the resulting in-memory list. -/
theorem append_failure_drops_run :
    (saveRunToLocalStorage false []
      (⟨0, [], 0, 0, 0, 0, 0, []⟩ : SavedRun)).2 = true ∧
    (⟨0, [], 0, 0, 0, 0, 0, []⟩ : SavedRun) ∉
      (saveRunToLocalStorage false []
        (⟨0, [], 0, 0, 0, 0, 0, []⟩ : SavedRun)).1 := by
  constructor
  · rfl
  · simp [saveRunToLocalStorage]

/-- Claim C9 (amended): a failed storage write reports the failure and
leaves the in-memory list unchanged — the run is dropped, not retained; only
a successful write appends the run to the in-memory list. -/
theorem saveRun_failure_semantics (savedRuns : List SavedRun)
    (run : SavedRun) :
    saveRunToLocalStorage false savedRuns run = (savedRuns, true) ∧
    saveRunToLocalStorage true savedRuns run = (savedRuns ++ [run], false) :=
  ⟨rfl, rfl⟩

/-- Claim C10 (counterexample): calling the pause handler while Stopped is
not a no-op — it transitions to Paused and increments the pause count. -/
theorem pause_while_stopped_transitions :
    initialState.trackingState = TrackingState.stopped ∧
    (handlePauseTracking 5000 initialState).trackingState
      = TrackingState.paused ∧
    (handlePauseTracking 5000 initialState).trackingState
      ≠ TrackingState.stopped ∧
    (handlePauseTracking 5000 initialState).pauseCount
      = initialState.pauseCount + 1 := by
  refine ⟨rfl, rfl, by simp [handlePauseTracking, clearTrackedWatch], rfl⟩

/-- Claim C10 (amended): the pause handler is unguarded — invoked in any
state, including Stopped, it transitions to Paused, increments the pause
count and records a pause start; invalid calls are prevented only by the UI
layer not rendering the pause control outside Running. -/
theorem pause_handler_unguarded (now : ℚ) (s : MapState)
    (_h : s.trackingState = TrackingState.stopped) :
    (handlePauseTracking now s).trackingState = TrackingState.paused ∧
    (handlePauseTracking now s).pauseCount = s.pauseCount + 1 ∧
    (handlePauseTracking now s).pauseStartTime = some now :=
  ⟨rfl, rfl, rfl⟩

/-- Witness for `pause_handler_unguarded` at the initial (Stopped) state. -/
theorem pause_handler_unguarded_witness :
    initialState.trackingState = TrackingState.stopped ∧
    (handlePauseTracking 5000 initialState).trackingState
      = TrackingState.paused :=
  ⟨rfl, (pause_handler_unguarded 5000 initialState rfl).1⟩

end RunPac
